import Mathlib

/-!
Shallow embedding of the Wazuh → Discord alert-forwarding script
(src/custom-discord.py) and proofs about its message-construction and
delivery pipeline.

The script is a one-shot pipeline: read an alert file (JSON), optionally
read an options file, build a Discord message from the alert, and POST it
to a webhook.  The stray module-level body at the top of the file (which
references an undefined variable and runs at import time) is excluded, as
the specification treats it as dead code; the embedding covers the
`main` / `process_args` pipeline and its helpers.

Modelling choices:
  - JSON values are the inductive `Json`; `Json.dumps` mirrors Python's
    `json.dumps` with its default settings (item separator ", ", key
    separator ": ", `ensure_ascii=True`).  Python tuples serialize as JSON
    arrays, which is how the script's accidental one-element tuple in
    `msg['title']` becomes an array on the wire.
  - An alert is a typed record `Alert`.  The fields that `generate_msg`
    reads unguarded (`rule.id`, `rule.level`, `rule.description` presence
    check aside, `location`, `id`) are required fields; the fields the
    script guards with presence checks (`full_log`, `agent`, `agentless`,
    `rule.description`) are `Option`s.
  - File-system effects are abstracted by `FileRes`: a path either names a
    missing file, a file with malformed JSON, or a file whose JSON parses.
  - `process_args` returns an `Outcome`: the process exits with a code,
    sends a payload (the single HTTP POST of `send_msg`), or raises on the
    empty-message check.
-/

namespace WazuhDiscord

/-- JSON values, as Python's `json` module sees them. -/
inductive Json where
  | null
  | bool (b : Bool)
  | num (n : Int)
  | str (s : String)
  | arr (elems : List Json)
  | obj (entries : List (String × Json))

/-- Lower-case hexadecimal digit, as Python's `json` emits in escapes. -/
def hexDigit (n : Nat) : Char :=
  if n < 10 then Char.ofNat (48 + n) else Char.ofNat (87 + n)

/-- A four-digit escape of the form backslash-u-XXXX. -/
def uEscape (n : Nat) : String :=
  "\\u" ++ String.mk [hexDigit (n / 4096 % 16), hexDigit (n / 256 % 16),
                      hexDigit (n / 16 % 16), hexDigit (n % 16)]

/-- How Python's `json.dumps` (with `ensure_ascii=True`, its default)
escapes one character inside a string literal. -/
def escapeChar (c : Char) : String :=
  if c = Char.ofNat 34 then "\\\""
  else if c = Char.ofNat 92 then "\\\\"
  else if c = Char.ofNat 10 then "\\n"
  else if c = Char.ofNat 13 then "\\r"
  else if c = Char.ofNat 9 then "\\t"
  else if c = Char.ofNat 8 then "\\b"
  else if c = Char.ofNat 12 then "\\f"
  else if c.toNat < 32 then uEscape c.toNat
  else if c.toNat < 128 then String.mk [c]
  else if c.toNat < 65536 then uEscape c.toNat
  else uEscape (55296 + (c.toNat - 65536) / 1024) ++
       uEscape (56320 + (c.toNat - 65536) % 1024)

/-- A JSON string literal: quote, escaped characters, quote. -/
def escapeString (s : String) : String :=
  "\"" ++ String.join (s.data.map escapeChar) ++ "\""

mutual

/-- Serialization mirroring Python's `json.dumps` defaults: separators
are ", " between items and ": " after a key, insertion order kept. -/
def Json.dumps : Json → String
  | .null => "null"
  | .bool true => "true"
  | .bool false => "false"
  | .num n => toString n
  | .str s => escapeString s
  | .arr elems => "[" ++ Json.dumpsArr elems ++ "]"
  | .obj entries => "\x7b" ++ Json.dumpsObj entries ++ "\x7d"

/-- Array items joined by ", ". -/
def Json.dumpsArr : List Json → String
  | [] => ""
  | [x] => x.dumps
  | x :: y :: rest => x.dumps ++ ", " ++ Json.dumpsArr (y :: rest)

/-- Object entries joined by ", ", each written key-colon-space-value. -/
def Json.dumpsObj : List (String × Json) → String
  | [] => ""
  | [(k, v)] => escapeString k ++ ": " ++ v.dumps
  | (k, v) :: e :: rest =>
      escapeString k ++ ": " ++ v.dumps ++ ", " ++ Json.dumpsObj (e :: rest)

end

/-- First value bound to `key` in an association list (dict lookup). -/
def lookupKey (key : String) : List (String × Json) → Option Json
  | [] => none
  | (k, v) :: rest => if k = key then some v else lookupKey key rest

/-- The value of `key` when the JSON value is an object holding it. -/
def Json.lookup (j : Json) (key : String) : Option Json :=
  match j with
  | .obj entries => lookupKey key entries
  | _ => none

/-- The underlying string of a JSON string value. -/
def Json.asString : Json → Option String
  | .str s => some s
  | _ => none

/-- The `agent` sub-record of an alert: `alert['agent']['id']` and
`alert['agent']['name']` as read by `generate_msg`. -/
structure AgentInfo where
  id : String
  name : String

/-- The `agentless` sub-record: `alert['agentless']['host']`. -/
structure AgentlessInfo where
  host : String

/-- The `rule` sub-record: `id`, integer `level`, and the optional
`description` (the script checks `'description' in alert['rule']`). -/
structure Rule where
  id : String
  level : Int
  description : Option String

/-- An alert record, with exactly the fields `generate_msg` reads.
`rule`, `location` and `id` are accessed unguarded; `full_log` via
`.get`, and `agent` / `agentless` behind `in` checks. -/
structure Alert where
  rule : Rule
  location : String
  id : String
  full_log : Option String
  agent : Option AgentInfo
  agentless : Option AgentlessInfo

/-- One entry of `msg['fields']`: a dict with keys "title" and "value". -/
def fieldEntry (title value : String) : Json :=
  Json.obj [("title", Json.str title), ("value", Json.str value)]

/-- The `msg['fields']` list built by `generate_msg`: an "Agent" entry
when `'agent' in alert`, an "Agentless Host" entry when
`'agentless' in alert` (two independent `if`s in the source, not an
`elif`), then always "Location" and "Rule ID". -/
def msgFields (alert : Alert) : List Json :=
  (match alert.agent with
   | some ag => [fieldEntry "Agent" ("(" ++ ag.id ++ ") - " ++ ag.name)]
   | none => []) ++
  (match alert.agentless with
   | some al => [fieldEntry "Agentless Host" al.host]
   | none => []) ++
  [fieldEntry "Location" alert.location,
   fieldEntry "Rule ID"
     (alert.rule.id ++ " _(Level " ++ toString alert.rule.level ++ ")_")]

/-- The `msg` dict assembled by `generate_msg` before `json.dumps`.
Note the source's trailing comma on the `msg['title']` assignment makes
that value a one-element Python tuple, which serializes as a JSON array.
`alert.get('full_log')` is `None` when absent, so the "text" key is
always present, possibly bound to null.  The `options` argument is
accepted but never read, exactly as in the source. -/
def generate_msg_obj (alert : Alert) (options : Option Json) : Json :=
  let level := alert.rule.level
  let color :=
    if level < 5 then "5763719"
    else if 5 ≤ level ∧ level ≤ 7 then "16705372"
    else "15548997"
  Json.obj
    [("color", Json.str color),
     ("title", Json.arr [Json.str ("Wazuh Alert - Rule " ++ alert.rule.id)]),
     ("description", Json.str
        (match alert.rule.description with
         | some d => d
         | none => "N/A")),
     ("text",
        match alert.full_log with
        | some log => Json.str log
        | none => Json.null),
     ("fields", Json.arr (msgFields alert)),
     ("ts", Json.str alert.id)]

/-- `generate_msg`: builds the message dict and returns `json.dumps` of
it — a pure function of the alert and the (ignored) options. -/
def generate_msg (alert : Alert) (options : Option Json) : String :=
  (generate_msg_obj alert options).dumps

/-- What the file system holds at a path the script opens: no file,
a file whose contents fail to parse as JSON, or parsed contents. -/
inductive FileRes (α : Type) where
  | missing
  | malformed
  | ok (value : α)

/-- Exit code for a missing alert file (`ERR_FILE_NOT_FOUND`). -/
def ERR_FILE_NOT_FOUND : Nat := 6

/-- Exit code for malformed JSON (`ERR_INVALID_JSON`). -/
def ERR_INVALID_JSON : Nat := 7

/-- `get_json_alert`: parsed alert, or `sys.exit(6)` on a missing file,
or `sys.exit(7)` on malformed JSON. -/
def get_json_alert (file : FileRes Alert) : Except Nat Alert :=
  match file with
  | .ok a => Except.ok a
  | .missing => Except.error ERR_FILE_NOT_FOUND
  | .malformed => Except.error ERR_INVALID_JSON

/-- `get_json_options`: parsed record on success; on a missing file the
`except FileNotFoundError` branch only logs, so the function falls off
the end and returns Python `None` (here `none`); any other failure is
`sys.exit(7)`. -/
def get_json_options (file : FileRes Json) : Except Nat (Option Json) :=
  match file with
  | .ok o => Except.ok (some o)
  | .missing => Except.ok none
  | .malformed => Except.error ERR_INVALID_JSON

/-- How one run of the pipeline ends: a `sys.exit` with a code, one HTTP
POST of the serialized payload (`send_msg`), or the raise on the
empty-message check. -/
inductive Outcome where
  | exited (code : Nat)
  | sent (payload : String)
  | emptyMessage
deriving DecidableEq

/-- True exactly for the `sent` outcome (an HTTP POST happened). -/
def Outcome.isSent : Outcome → Bool
  | .sent _ => true
  | _ => false

/-- True exactly for the empty-message raise. -/
def Outcome.isEmptyMsg : Outcome → Bool
  | .emptyMessage => true
  | _ => false

/-- True exactly for a malformed-JSON file. -/
def FileRes.isMalformed {α : Type} : FileRes α → Bool
  | .malformed => true
  | _ => false

/-- `process_args`, the core pipeline, given what the file system holds
at the alert path and at the options path (an invocation with no
options argument opens the empty path, which is a missing file).  The
source loads options first, then the alert, then builds the message,
raises if its length is zero, and otherwise sends it. -/
def process_args (alertFile : FileRes Alert) (optionsFile : FileRes Json) :
    Outcome :=
  match get_json_options optionsFile with
  | Except.error code => Outcome.exited code
  | Except.ok jsonOptions =>
    match get_json_alert alertFile with
    | Except.error code => Outcome.exited code
    | Except.ok jsonAlert =>
      let msg := generate_msg jsonAlert jsonOptions
      if msg.length = 0 then Outcome.emptyMessage
      else Outcome.sent msg

/-- The "Agent" field entry for an agent sub-record. -/
def agentEntry (ag : AgentInfo) : Json :=
  fieldEntry "Agent" ("(" ++ ag.id ++ ") - " ++ ag.name)

/-- The "Agentless Host" field entry for an agentless sub-record. -/
def agentlessEntry (al : AgentlessInfo) : Json :=
  fieldEntry "Agentless Host" al.host

/-- The "Location" field entry of an alert. -/
def locationEntry (alert : Alert) : Json :=
  fieldEntry "Location" alert.location

/-- The "Rule ID" field entry of an alert. -/
def ruleIdEntry (alert : Alert) : Json :=
  fieldEntry "Rule ID"
    (alert.rule.id ++ " _(Level " ++ toString alert.rule.level ++ ")_")

/-- The string value of the last appended field of an alert's message. -/
def lastFieldValue (alert : Alert) : Option String :=
  ((msgFields alert).getLast?.bind (fun f => f.lookup "value")).bind
    Json.asString

/-- The spec's running example: `rule.id="100001"`, `rule.level=10`,
`location="server1"`, no description, agent, agentless or full_log. -/
def alertA : Alert :=
  { rule := { id := "100001", level := 10, description := none },
    location := "server1", id := "1690000000.445", full_log := none,
    agent := none, agentless := none }

/-- The same alert carrying both an agent and an agentless record. -/
def alertBoth : Alert :=
  { rule := { id := "100001", level := 10, description := none },
    location := "server1", id := "1690000000.445", full_log := none,
    agent := some { id := "001", name := "web01" },
    agentless := some { host := "h1" } }

/-- Boundary alert of severity level 4. -/
def alertL4 : Alert :=
  { rule := { id := "100001", level := 4, description := none },
    location := "server1", id := "1690000000.445", full_log := none,
    agent := none, agentless := none }

/-- Boundary alert of severity level 5. -/
def alertL5 : Alert :=
  { rule := { id := "100001", level := 5, description := none },
    location := "server1", id := "1690000000.445", full_log := none,
    agent := none, agentless := none }

/-- Boundary alert of severity level 7. -/
def alertL7 : Alert :=
  { rule := { id := "100001", level := 7, description := none },
    location := "server1", id := "1690000000.445", full_log := none,
    agent := none, agentless := none }

/-- Boundary alert of severity level 8. -/
def alertL8 : Alert :=
  { rule := { id := "100001", level := 8, description := none },
    location := "server1", id := "1690000000.445", full_log := none,
    agent := none, agentless := none }

/-- The "color" entry of the built message is the inline tier expression
of the source. -/
theorem color_lookup (alert : Alert) (options : Option Json) :
    (generate_msg_obj alert options).lookup "color" =
      some (Json.str
        (if alert.rule.level < 5 then "5763719"
         else if 5 ≤ alert.rule.level ∧ alert.rule.level ≤ 7 then "16705372"
         else "15548997")) := rfl

/-- Serializing any JSON object yields a string of positive length (it
is wrapped in braces). -/
theorem dumps_obj_length_pos (entries : List (String × Json)) :
    0 < (Json.dumps (Json.obj entries)).length := by
  have h : Json.dumps (Json.obj entries) =
      "\x7b" ++ Json.dumpsObj entries ++ "\x7d" := by
    simp [Json.dumps]
  rw [h, String.length_append, String.length_append]
  have h1 : ("\x7b" : String).length = 1 := rfl
  omega

/-- The serialized message of any alert has positive length. -/
theorem msg_length_pos (alert : Alert) (options : Option Json) :
    0 < (generate_msg alert options).length :=
  dumps_obj_length_pos _

/-- Claim C1: the severity-to-color mapping used by the message builder
is the fixed three-tier total function on the integer alert.rule.level:
level < 5 gives the green constant "5763719", 5 ≤ level ≤ 7 the yellow
constant "16705372", and level > 7 the red constant "15548997". -/
theorem severity_color_tiers (alert : Alert) (options : Option Json) :
    (alert.rule.level < 5 →
      (generate_msg_obj alert options).lookup "color" =
        some (Json.str "5763719")) ∧
    (5 ≤ alert.rule.level → alert.rule.level ≤ 7 →
      (generate_msg_obj alert options).lookup "color" =
        some (Json.str "16705372")) ∧
    (7 < alert.rule.level →
      (generate_msg_obj alert options).lookup "color" =
        some (Json.str "15548997")) := by
  refine ⟨fun h => ?_, fun h1 h2 => ?_, fun h => ?_⟩ <;> rw [color_lookup]
  · rw [if_pos h]
  · rw [if_neg (by omega), if_pos ⟨h1, h2⟩]
  · rw [if_neg (by omega), if_neg (by omega)]

/-- Boundary levels 4, 5, 7, 8 map to green, yellow, yellow, red, by the
tier theorem applied at the four boundary alerts. -/
theorem severity_color_boundaries :
    (generate_msg_obj alertL4 none).lookup "color" =
      some (Json.str "5763719") ∧
    (generate_msg_obj alertL5 none).lookup "color" =
      some (Json.str "16705372") ∧
    (generate_msg_obj alertL7 none).lookup "color" =
      some (Json.str "16705372") ∧
    (generate_msg_obj alertL8 none).lookup "color" =
      some (Json.str "15548997") :=
  ⟨(severity_color_tiers alertL4 none).1 (by decide),
   (severity_color_tiers alertL5 none).2.1 (by decide) (by decide),
   (severity_color_tiers alertL7 none).2.1 (by decide) (by decide),
   (severity_color_tiers alertL8 none).2.2 (by decide)⟩

/-- Claim C2 is false on the code: for the spec's example alert the
"title" entry is a one-element JSON array (the source's trailing comma
makes the value a Python tuple) whose text starts "Wazuh Alert - Rule",
so it is not the plain string "Alert - Rule 100001". -/
theorem title_entry_counterexample :
    (generate_msg_obj alertA none).lookup "title" =
      some (Json.arr [Json.str "Wazuh Alert - Rule 100001"]) ∧
    ((generate_msg_obj alertA none).lookup "title" =
      some (Json.str "Alert - Rule 100001") → False) := by
  refine ⟨rfl, fun h => ?_⟩
  rw [show (generate_msg_obj alertA none).lookup "title" =
      some (Json.arr [Json.str "Wazuh Alert - Rule 100001"]) from rfl] at h
  exact Json.noConfusion (Option.some.inj h)

/-- Claim C2 (amended): for every alert, the "title" entry of the wire
payload is a one-element JSON array whose sole element is the string
"Wazuh Alert - Rule " followed by alert.rule.id. -/
theorem title_entry_array (alert : Alert) (options : Option Json) :
    (generate_msg_obj alert options).lookup "title" =
      some (Json.arr [Json.str ("Wazuh Alert - Rule " ++ alert.rule.id)]) :=
  rfl

/-- Claim C3 is false on the code: an alert carrying both agent and
agentless records yields both the Agent and the Agentless Host fields
(four fields in total, not the three the claim would give), because the
source uses two independent if statements rather than an elif. -/
theorem agent_agentless_counterexample :
    msgFields alertBoth =
      [fieldEntry "Agent" "(001) - web01",
       fieldEntry "Agentless Host" "h1",
       fieldEntry "Location" "server1",
       fieldEntry "Rule ID" "100001 _(Level 10)_"] ∧
    ¬ (msgFields alertBoth).length = 3 :=
  ⟨rfl, by decide⟩

/-- Claim C3 (amended): fields are appended in the fixed order Agent,
Agentless Host, Location, Rule ID; the Agent entry is present exactly
when alert.agent is, and the Agentless Host entry is present exactly
when alert.agentless is, independently of the agent (an alert with both
yields both fields). -/
theorem fields_order (alert : Alert) :
    (alert.agent = none → alert.agentless = none →
      msgFields alert = [locationEntry alert, ruleIdEntry alert]) ∧
    (∀ ag, alert.agent = some ag → alert.agentless = none →
      msgFields alert =
        [agentEntry ag, locationEntry alert, ruleIdEntry alert]) ∧
    (∀ al, alert.agent = none → alert.agentless = some al →
      msgFields alert =
        [agentlessEntry al, locationEntry alert, ruleIdEntry alert]) ∧
    (∀ ag al, alert.agent = some ag → alert.agentless = some al →
      msgFields alert =
        [agentEntry ag, agentlessEntry al, locationEntry alert,
         ruleIdEntry alert]) := by
  refine ⟨?_, ?_, ?_, ?_⟩ <;> intros <;>
    simp_all [msgFields, agentEntry, agentlessEntry, locationEntry,
      ruleIdEntry]

/-- Claim C4 is false on the code: at rule.id="100001", rule.level=10
the last field's value is "100001 _(Level 10)_" (the source's format
string puts markdown underscores around the parenthesis), not
"100001 (Level 10)". -/
theorem rule_id_value_counterexample :
    lastFieldValue alertA = some "100001 _(Level 10)_" ∧
    ¬ lastFieldValue alertA = some "100001 (Level 10)" :=
  ⟨rfl, by decide⟩

/-- Claim C4 (amended): for every alert the last field appended is
titled "Rule ID" and its value is the string
"<rule.id> _(Level <rule.level>)_". -/
theorem last_field_rule_id (alert : Alert) :
    (msgFields alert).getLast? =
      some (fieldEntry "Rule ID"
        (alert.rule.id ++ " _(Level " ++ toString alert.rule.level ++
         ")_")) := by
  obtain ⟨rule, loc, aid, fl, ag, al⟩ := alert
  cases ag <;> cases al <;> rfl

/-- Claim C5 is false on the code as worded: on a missing options file
get_json_options falls through its handler and returns Python None
(here Except.ok none), not an empty record such as
Except.ok (some (Json.obj [])). -/
theorem options_missing_counterexample :
    get_json_options FileRes.missing = Except.ok none ∧
    (get_json_options FileRes.missing = Except.ok (some (Json.obj [])) →
      False) :=
  ⟨rfl, fun h => Option.noConfusion (Except.ok.inj h)⟩

/-- Claim C5 (amended): on a missing options file the loader returns
None (no record) and signals no error, and the pipeline proceeds
exactly as it would with an empty options record, the options being
unused downstream. -/
theorem options_missing_proceeds (alertFile : FileRes Alert) :
    get_json_options FileRes.missing = Except.ok none ∧
    process_args alertFile FileRes.missing =
      process_args alertFile (FileRes.ok (Json.obj [])) := by
  refine ⟨rfl, ?_⟩
  cases alertFile <;> rfl

/-- Claim C6 is false on the code as universally stated: with a missing
alert file and a malformed options file the process exits 7, not 6,
because the options file is loaded before the alert file. -/
theorem alert_missing_counterexample :
    process_args FileRes.missing FileRes.malformed = Outcome.exited 7 ∧
    ¬ process_args FileRes.missing FileRes.malformed = Outcome.exited 6 :=
  ⟨rfl, by decide⟩

/-- Claim C6 (amended): whenever the alert file is missing no HTTP POST
happens; if the options file is not malformed the process exits with
the FileNotFound code 6, and with a malformed options file it exits
with 7 (still without a POST). -/
theorem alert_file_missing (optionsFile : FileRes Json) :
    (process_args FileRes.missing optionsFile).isSent = false ∧
    (optionsFile.isMalformed = false →
      process_args FileRes.missing optionsFile = Outcome.exited 6) ∧
    (optionsFile.isMalformed = true →
      process_args FileRes.missing optionsFile = Outcome.exited 7) := by
  cases optionsFile with
  | missing => exact ⟨rfl, fun _ => rfl, fun h => Bool.noConfusion h⟩
  | malformed => exact ⟨rfl, fun h => Bool.noConfusion h, fun _ => rfl⟩
  | ok o => exact ⟨rfl, fun _ => rfl, fun h => Bool.noConfusion h⟩

/-- The C6 amendment applied at a missing options file: exit code 6. -/
theorem alert_file_missing_witness :
    (process_args FileRes.missing (FileRes.missing : FileRes Json)).isSent
      = false ∧
    process_args FileRes.missing (FileRes.missing : FileRes Json) =
      Outcome.exited 6 :=
  ⟨(alert_file_missing FileRes.missing).1,
   (alert_file_missing FileRes.missing).2.1 rfl⟩

/-- Claim C7: every Alert record carries rule.id, rule.level, location
and id, and for every such alert the serialized message has positive
length, so the empty-message branch of process_args is unreachable: no
run of the pipeline ends in the EmptyMessage raise. -/
theorem empty_message_unreachable (alert : Alert) (options : Option Json)
    (alertFile : FileRes Alert) (optionsFile : FileRes Json) :
    0 < (generate_msg alert options).length ∧
    (process_args alertFile optionsFile).isEmptyMsg = false := by
  refine ⟨msg_length_pos alert options, ?_⟩
  cases optionsFile with
  | malformed => rfl
  | missing =>
    cases alertFile with
    | missing => rfl
    | malformed => rfl
    | ok a =>
      show Outcome.isEmptyMsg
        (if (generate_msg a none).length = 0 then Outcome.emptyMessage
         else Outcome.sent (generate_msg a none)) = false
      rw [if_neg (Nat.pos_iff_ne_zero.mp (msg_length_pos a none))]
      rfl
  | ok o =>
    cases alertFile with
    | missing => rfl
    | malformed => rfl
    | ok a =>
      show Outcome.isEmptyMsg
        (if (generate_msg a (some o)).length = 0 then Outcome.emptyMessage
         else Outcome.sent (generate_msg a (some o))) = false
      rw [if_neg (Nat.pos_iff_ne_zero.mp (msg_length_pos a (some o)))]
      rfl

/-- Claim C8 is false on the code: for an alert with no full_log the
"text" key is still present in the payload, bound to JSON null (Python
serializes the None returned by alert.get), rather than being absent. -/
theorem text_entry_counterexample :
    (generate_msg_obj alertA none).lookup "text" = some Json.null ∧
    ((generate_msg_obj alertA none).lookup "text" = none → False) := by
  refine ⟨rfl, fun h => ?_⟩
  rw [show (generate_msg_obj alertA none).lookup "text" = some Json.null
      from rfl] at h
  exact Option.noConfusion h

/-- Claim C8 (amended): the "text" entry of the payload equals
alert.full_log when full_log is present, and is JSON null, with the key
still present, when full_log is absent. -/
theorem text_entry (alert : Alert) (options : Option Json) :
    (generate_msg_obj alert options).lookup "text" =
      some (match alert.full_log with
            | some log => Json.str log
            | none => Json.null) := rfl

/-- Claim C9: the message builder is deterministic: invoking it twice on
an identical alert-and-options pair yields byte-identical serialized
payloads, generate_msg being a pure function of its two arguments. -/
theorem generate_msg_deterministic (a1 a2 : Alert) (o1 o2 : Option Json)
    (ha : a1 = a2) (ho : o1 = o2) :
    generate_msg a1 o1 = generate_msg a2 o2 := by
  rw [ha, ho]

/-- The determinism theorem applied at the spec's example input. -/
theorem generate_msg_deterministic_witness :
    generate_msg alertA none = generate_msg alertA none :=
  generate_msg_deterministic alertA alertA none none rfl rfl

/-- Claim C10: the options record does not influence the constructed
message: for one alert and any two options records the serialized
payloads coincide (the options argument is never read). -/
theorem options_noninterference (alert : Alert) (o1 o2 : Option Json) :
    generate_msg alert o1 = generate_msg alert o2 := rfl

end WazuhDiscord
